import Mathlib

/-!
Verification development for the outbound Discord notification dispatcher of
the aura-applications repository (src/src/lib/discord-bot.ts).

The TypeScript module keeps three pieces of module-level mutable state:
`client` (the discord.js client handle, initially null), `isReady`
(initially false) and `messageQueue` (an array of pending deliveries).
We embed that state as the structure `BotState` and each exported function
as a pure state transformer.  External effects are made explicit:

* the environment variable DISCORD_BOT_TOKEN becomes the `Env` structure;
* the outcome of the two timed legs of a send attempt (user fetch and
  message transmission, each under a 10 second timeout in the source)
  collapses into a boolean oracle: `true` means the attempt succeeds,
  `false` means either leg errored or timed out;
* `setTimeout` scheduling is recorded as the list of delays (in
  milliseconds) that a drain pass registers;
* the composition clock `Date.now()` becomes an explicit `now` argument
  (milliseconds since epoch, as in JavaScript).

Session creation is tracked with serial numbers so that statements about
"exactly one session object" and duplicate login attempts are expressible.
-/

/-- The decision carried by a notification: the literal union
`approved | denied` of the source. -/
inductive Status where
  | approved : Status
  | denied : Status
deriving Repr, DecidableEq

/-- One entry of `messageQueue`:
`{ userId, status, reason?, retries }` in the source (line 6). -/
structure PendingDelivery where
  userId : String
  status : Status
  reason : Option String
  retries : Nat
deriving Repr, DecidableEq

/-- The branding configuration `applicationConfig.discordBot`
(serverName, serverIcon, footerText), treated as opaque strings. -/
structure BrandConfig where
  serverName : String
  serverIcon : String
  footerText : String
deriving Repr, DecidableEq

/-- One embed field added by `addFields`. -/
structure EmbedField where
  name : String
  value : String
  isInline : Bool
deriving Repr, DecidableEq

/-- The embed payload built by `sendDirectMessageInternal` via
`EmbedBuilder` (lines 85-129): color, author block, title, description,
ordered field list, footer block and timestamp. -/
structure Embed where
  color : String
  authorName : String
  authorIcon : String
  title : String
  description : String
  fields : List EmbedField
  footerText : String
  footerIcon : String
  timestamp : Nat
deriving Repr, DecidableEq

/-- The process environment: `process.env.DISCORD_BOT_TOKEN`
(a string when set, absent otherwise). -/
structure Env where
  discordBotToken : Option String
deriving Repr, DecidableEq

/-- JavaScript truthiness of the token check
`if (!process.env.DISCORD_BOT_TOKEN)` (line 9): an absent variable and the
empty string are both falsy. -/
def Env.tokenPresent (e : Env) : Bool :=
  match e.discordBotToken with
  | none => false
  | some t => t ≠ ""

/-- The module-level mutable state of discord-bot.ts.  `client` holds the
serial number of the session object when one exists (null ↔ `none`);
`sessionsCreated` counts `new Client(...)` constructions and
`loginAttempts` counts `client.login(...)` calls, so idempotence of
initialization is observable. -/
structure BotState where
  client : Option Nat
  isReady : Bool
  messageQueue : List PendingDelivery
  sessionsCreated : Nat
  loginAttempts : Nat
deriving Repr, DecidableEq

/-- The state at process start: `client = null`, `isReady = false`,
empty queue, no sessions, no logins. -/
def BotState.initial : BotState :=
  { client := none
    isReady := false
    messageQueue := []
    sessionsCreated := 0
    loginAttempts := 0 }

/-- `initializeDiscordBot` (lines 8-50).  Returns early when the token is
absent (line 9) or when a client already exists (line 14); otherwise
constructs one new session and performs one login attempt.  The handshake
is asynchronous, so `isReady` is not changed here: the `ready` event
handler flips it later. -/
def initDiscordBot (env : Env) (s : BotState) : BotState :=
  if env.tokenPresent = false then s
  else if s.client.isSome then s
  else
    { s with
      client := some s.sessionsCreated
      sessionsCreated := s.sessionsCreated + 1
      loginAttempts := s.loginAttempts + 1 }

/-- The long-form Discord timestamp markup built on lines 82-83:
`Math.floor(Date.now() / 1000)` wrapped as a localized full timestamp. -/
def timestampLong (now : Nat) : String :=
  "<t:" ++ toString (now / 1000) ++ ":F>"

/-- Acceptance description text (line 94 of the source), byte for byte:
the celebration glyph there is the four mojibake code points
U+F8FF U+00FC U+00E9 U+00E2. -/
def approvedDescription : String :=
  "Hello there,\n\nAfter reviewing your application, we\x27re excited to let you know that your whitelist application has been **ACCEPTED**! üéâ\n\nYour responses demonstrated a strong understanding of roleplay and alignment with our community values. We believe you\x27ll be a great addition to our server!\n\n**Next Steps:**\n1. Join our Discord server if you haven\x27t already\n2. Read the rules and guidelines in #server-rules\n3. Connect to the server using your whitelisted Steam account"

/-- Denial description text (line 95 of the source). -/
def deniedDescription : String :=
  "Hello there,\n\nAfter careful consideration of your whitelist application, we regret to inform you that your application has been **DENIED** at this time.\n\nYou may reapply after a 14-day waiting period, taking into account the feedback provided."

/-- The Message Composer: the pure embed construction of
`sendDirectMessageInternal` (lines 85-129).  Fields are appended in source
order: Application Status and Decision Date (lines 97-108), the optional
reason field (lines 110-116), and the approval-only Important Information
field (lines 124-129) which is added after the footer and timestamp.
The status values and the celebration glyph reproduce the exact
(mojibake) code points found in the source file.  The reason field is
guarded by JS truthiness (`if (reason)` on line 110): an absent reason
and the empty string both add no field. -/
def composeEmbed (cfg : BrandConfig) (status : Status) (reason : Option String)
    (now : Nat) : Embed :=
  let baseFields : List EmbedField :=
    [ { name := "Application Status"
        value := match status with
          | .approved => "‚úÖ Accepted"
          | .denied => "‚ùå Denied"
        isInline := true }
    , { name := "Decision Date"
        value := timestampLong now
        isInline := true } ]
  let reasonFields : List EmbedField :=
    match reason with
    | none => []
    | some r =>
      if r = "" then []
      else
        [ { name := match status with
              | .approved => "Staff Note"
              | .denied => "Reason"
            value := r
            isInline := false } ]
  let extraFields : List EmbedField :=
    match status with
    | .approved =>
      [ { name := "Important Information"
          value := "Please make sure to read our server rules and guidelines before connecting. If you have any questions, our staff team is here to help!"
          isInline := false } ]
    | .denied => []
  { color := match status with
      | .approved => "#00FF00"
      | .denied => "#FF0000"
    authorName := cfg.serverName
    authorIcon := cfg.serverIcon
    title := "Whitelist Application Response"
    description := match status with
      | .approved => approvedDescription
      | .denied => deniedDescription
    fields := baseFields ++ reasonFields ++ extraFields
    footerText := cfg.footerText
    footerIcon := cfg.serverIcon
    timestamp := now }

/-- Number of fields of the embed carrying a given label. -/
def fieldCount (e : Embed) (n : String) : Nat :=
  e.fields.countP (fun f => f.name == n)

/-- Completeness of an embed payload: title, description, a decision
color, and both mandatory fields are present. -/
def completePayload (e : Embed) : Bool :=
  (e.title != "") && (e.description != "")
    && ((e.color == "#00FF00") || (e.color == "#FF0000"))
    && (fieldCount e "Application Status" == 1)
    && (fieldCount e "Decision Date" == 1)

/-- `sendDirectMessageInternal` (lines 77-164).  Throws when `client` is
null (lines 78-80); otherwise composes the embed and performs the send,
whose success is given by the `sendOk` oracle (covering both the user
fetch leg and the transmission leg, each raced against a 10 second
timeout in the source).  All failure causes are rethrown after logging
(line 162), so they reach the caller uniformly. -/
def sendDirectMessageInternal (sendOk : Bool) (cfg : BrandConfig)
    (userId : String) (status : Status) (reason : Option String) (now : Nat)
    (s : BotState) : Except String Embed :=
  if s.client.isNone then
    .error "Discord bot not initialized"
  else
    let embed := composeEmbed cfg status reason now
    if sendOk then .ok embed
    else .error ("Failed to send Discord message to user " ++ userId)

/-- Result of one drain pass: the new state, the queue item attempted this
pass (with its pre-attempt retry count), and the list of `setTimeout`
delays the pass registered, in registration order. -/
structure DrainOutcome where
  state : BotState
  attempted : Option PendingDelivery
  scheduled : List Nat
deriving Repr, DecidableEq

/-- One pass of `processMessageQueue` (lines 52-75).  No-op when not ready
or when the queue is empty (line 53).  Otherwise it shifts the head item,
attempts the send, and on failure either reinserts at the head with the
retry counter incremented and a backoff timer of `5000 * retries`
milliseconds (lines 65-69) or abandons the item (line 71).  The 1000 ms
pacing timer of line 74 runs on every path that shifted an item. -/
def processMessageQueue (sendOk : PendingDelivery → Bool) (cfg : BrandConfig)
    (now : Nat) (s : BotState) : DrainOutcome :=
  if s.isReady = false || s.messageQueue.isEmpty then
    { state := s, attempted := none, scheduled := [] }
  else
    match s.messageQueue with
    | [] => { state := s, attempted := none, scheduled := [] }
    | m :: rest =>
      match sendDirectMessageInternal (sendOk m) cfg m.userId m.status m.reason now s with
      | .ok _ =>
        { state := { s with messageQueue := rest }
          attempted := some m
          scheduled := [1000] }
      | .error _ =>
        if m.retries < 3 then
          { state := { s with messageQueue := { m with retries := m.retries + 1 } :: rest }
            attempted := some m
            scheduled := [5000 * (m.retries + 1), 1000] }
        else
          { state := { s with messageQueue := rest }
            attempted := some m
            scheduled := [1000] }

/-- Iterated drain passes: final state plus the items attempted across the
passes, in order (each with its pre-attempt retry count). -/
def drainTrace (sendOk : PendingDelivery → Bool) (cfg : BrandConfig)
    (now : Nat) : Nat → BotState → BotState × List PendingDelivery
  | 0, s => (s, [])
  | n + 1, s =>
    let o := processMessageQueue sendOk cfg now s
    let r := drainTrace sendOk cfg now n o.state
    (r.1, o.attempted.toList ++ r.2)

/-- Result of one `sendDirectMessage` call: the new state, the `delivered`
acknowledgment reported to the caller (true exactly when the immediate
send succeeded), and whether a send was attempted at all. -/
structure DispatchOutcome where
  state : BotState
  delivered : Bool
  attempted : Bool
deriving Repr, DecidableEq

/-- The Dispatcher Facade `sendDirectMessage` (lines 166-186).  When no
client exists it lazily initializes and waits a 1 second grace period
(lines 167-171; the wait does not change state in this single-process
embedding).  When not ready it enqueues directly with `retries = 0`
(lines 173-177).  When ready it attempts one immediate send and, on any
thrown failure, appends a fresh entry with `retries = 0` (lines 179-185).
The catch on line 181 swallows every error, so the function never throws:
it is total here. -/
def sendDirectMessage (env : Env) (sendOk : Bool) (cfg : BrandConfig)
    (now : Nat) (userId : String) (status : Status) (reason : Option String)
    (s : BotState) : DispatchOutcome :=
  let s1 := if s.client.isNone then initDiscordBot env s else s
  if s1.isReady = false then
    { state := { s1 with messageQueue := s1.messageQueue ++ [⟨userId, status, reason, 0⟩] }
      delivered := false
      attempted := false }
  else
    match sendDirectMessageInternal sendOk cfg userId status reason now s1 with
    | .ok _ =>
      { state := s1, delivered := true, attempted := true }
    | .error _ =>
      { state := { s1 with messageQueue := s1.messageQueue ++ [⟨userId, status, reason, 0⟩] }
        delivered := false
        attempted := true }

/-- `getBotStatus` (lines 188-195): read-only introspection. -/
def getBotStatus (s : BotState) : Bool × Bool × Nat :=
  (s.client.isSome, s.isReady, s.messageQueue.length)

/-- `forceProcessQueue` (lines 197-201): drain only when ready. -/
def forceProcessQueue (sendOk : PendingDelivery → Bool) (cfg : BrandConfig)
    (now : Nat) (s : BotState) : DrainOutcome :=
  if s.isReady then processMessageQueue sendOk cfg now s
  else { state := s, attempted := none, scheduled := [] }

/-- A sequence of `sendDirectMessage` calls made one after the other (the
host CRUD layer dispatching several decisions).  Returns the final state
and, per call in order, the pair (delivered, attempted). -/
def dispatchRun (env : Env) (sendOk : Bool) (cfg : BrandConfig) (now : Nat) :
    List (String × Status × Option String) → BotState →
      BotState × List (Bool × Bool)
  | [], s => (s, [])
  | c :: cs, s =>
    let o := sendDirectMessage env sendOk cfg now c.1 c.2.1 c.2.2 s
    let r := dispatchRun env sendOk cfg now cs o.state
    (r.1, (o.delivered, o.attempted) :: r.2)

/-! ### Sample data for concrete witnesses -/

/-- A concrete branding configuration. -/
def cfg0 : BrandConfig := ⟨"Aura Development", "https://example.org/icon.png", "Aura Development Team"⟩

/-- A concrete fresh queue item. -/
def m0 : PendingDelivery := ⟨"u1", .approved, none, 0⟩

/-- A ready state whose queue holds exactly `m0`. -/
def readyState : BotState := ⟨some 0, true, [m0], 1, 1⟩

/-- A ready state with an empty queue. -/
def readyEmptyState : BotState := ⟨some 0, true, [], 1, 1⟩

/-- The environment without the bot token. -/
def envNone : Env := ⟨none⟩

/-! ### Helper lemmas -/

/-- Initialization never touches the message queue. -/
theorem initDiscordBot_messageQueue (env : Env) (s : BotState) :
    (initDiscordBot env s).messageQueue = s.messageQueue := by
  unfold initDiscordBot
  split
  · rfl
  · split <;> rfl

/-- Initialization never flips readiness: the handshake is asynchronous. -/
theorem initDiscordBot_isReady (env : Env) (s : BotState) :
    (initDiscordBot env s).isReady = s.isReady := by
  unfold initDiscordBot
  split
  · rfl
  · split <;> rfl

/-- With the token absent, initialization is the identity (early return on
line 9 of the source). -/
theorem initDiscordBot_no_token (env : Env) (s : BotState)
    (htok : env.tokenPresent = false) : initDiscordBot env s = s := by
  unfold initDiscordBot
  simp [htok]

/-- With a client already present, initialization is the identity (early
return on line 14 of the source). -/
theorem initDiscordBot_client_some (env : Env) (s : BotState) (c : Nat)
    (hclient : s.client = some c) : initDiscordBot env s = s := by
  unfold initDiscordBot
  simp [hclient]

/-- A drain pass on a ready state whose head attempt fails with
`retries < 3`: head reinsert with the counter incremented, backoff timer
of `5000 * (retries + 1)` ms, pacing timer of 1000 ms. -/
theorem processMessageQueue_fail_lt (sendOk : PendingDelivery → Bool)
    (cfg : BrandConfig) (now : Nat) (m : PendingDelivery)
    (rest : List PendingDelivery) (s : BotState) (c : Nat)
    (hready : s.isReady = true) (hclient : s.client = some c)
    (hq : s.messageQueue = m :: rest) (hfail : sendOk m = false)
    (hlt : m.retries < 3) :
    processMessageQueue sendOk cfg now s =
      { state := { s with messageQueue := { m with retries := m.retries + 1 } :: rest }
        attempted := some m
        scheduled := [5000 * (m.retries + 1), 1000] } := by
  simp [processMessageQueue, sendDirectMessageInternal, hq, hready, hclient, hfail, hlt]

/-- A drain pass on a ready state whose head attempt fails with
`retries = 3`: the item is dropped, only the pacing timer remains. -/
theorem processMessageQueue_fail_ge (sendOk : PendingDelivery → Bool)
    (cfg : BrandConfig) (now : Nat) (m : PendingDelivery)
    (rest : List PendingDelivery) (s : BotState) (c : Nat)
    (hready : s.isReady = true) (hclient : s.client = some c)
    (hq : s.messageQueue = m :: rest) (hfail : sendOk m = false)
    (hge : ¬ m.retries < 3) :
    processMessageQueue sendOk cfg now s =
      { state := { s with messageQueue := rest }
        attempted := some m
        scheduled := [1000] } := by
  simp [processMessageQueue, sendDirectMessageInternal, hq, hready, hclient, hfail, hge]

/-- A drain pass on a state with an empty queue is a no-op. -/
theorem processMessageQueue_nil (sendOk : PendingDelivery → Bool)
    (cfg : BrandConfig) (now : Nat) (s : BotState)
    (hq : s.messageQueue = []) :
    processMessageQueue sendOk cfg now s =
      { state := s, attempted := none, scheduled := [] } := by
  simp [processMessageQueue, hq]

/-- Iterated drains on a state with an empty queue attempt nothing and
leave the state unchanged. -/
theorem drainTrace_nil (sendOk : PendingDelivery → Bool) (cfg : BrandConfig)
    (now : Nat) (k : Nat) (s : BotState) (hq : s.messageQueue = []) :
    drainTrace sendOk cfg now k s = (s, []) := by
  induction k with
  | zero => rfl
  | succ n ih =>
    simp [drainTrace, processMessageQueue_nil sendOk cfg now s hq, ih]

/-- Drain traces compose: the trace of `a + b` passes is the trace of the
first `a` passes followed by the trace of `b` more passes from the
reached state. -/
theorem drainTrace_add (sendOk : PendingDelivery → Bool) (cfg : BrandConfig)
    (now : Nat) (a b : Nat) (s : BotState) :
    drainTrace sendOk cfg now (a + b) s =
      ((drainTrace sendOk cfg now b (drainTrace sendOk cfg now a s).1).1,
        (drainTrace sendOk cfg now a s).2 ++
          (drainTrace sendOk cfg now b (drainTrace sendOk cfg now a s).1).2) := by
  induction a generalizing s with
  | zero => simp [drainTrace]
  | succ n ih =>
    have hsucc : n + 1 + b = (n + b) + 1 := by omega
    rw [hsucc]
    simp only [drainTrace]
    rw [ih]
    simp [drainTrace, List.append_assoc]

/-! ### Claim theorems -/

/-- C2: during a drain pass, a failed send attempt on a queued item with
`retryCount < 3` increments the retry counter by exactly one, reinserts
the item at the head of the queue ahead of every other queued item, and
registers a follow-up drain timer of exactly `5000 * retryCount`
milliseconds, where `retryCount` is the incremented value (5 s, 10 s,
15 s for the three retries). -/
theorem C2_retry_backoff (sendOk : PendingDelivery → Bool) (cfg : BrandConfig)
    (now : Nat) (m : PendingDelivery) (rest : List PendingDelivery)
    (s : BotState) (c : Nat) (hready : s.isReady = true)
    (hclient : s.client = some c) (hq : s.messageQueue = m :: rest)
    (hfail : sendOk m = false) (hlt : m.retries < 3) :
    (processMessageQueue sendOk cfg now s).state.messageQueue
        = { m with retries := m.retries + 1 } :: rest ∧
    5000 * (m.retries + 1) ∈ (processMessageQueue sendOk cfg now s).scheduled := by
  rw [processMessageQueue_fail_lt sendOk cfg now m rest s c hready hclient hq hfail hlt]
  exact ⟨rfl, List.mem_cons_self _ _⟩

/-- Witness for C2 at a concrete ready state holding one fresh item. -/
theorem C2_retry_backoff_witness :
    (processMessageQueue (fun _ => false) cfg0 0 readyState).state.messageQueue
        = [{ m0 with retries := m0.retries + 1 }] ∧
    5000 * (m0.retries + 1) ∈ (processMessageQueue (fun _ => false) cfg0 0 readyState).scheduled :=
  C2_retry_backoff (fun _ => false) cfg0 0 m0 [] readyState 0 rfl rfl rfl rfl (by decide)

/-- C9: on that same failure path the pass registers exactly two timers,
in order: the backoff drain after `5000 * (retries + 1)` milliseconds and
the unconditional 1000 millisecond pacing drain of line 74, so the
reinserted head item can be re-attempted about one second later, before
its backoff timer fires. -/
theorem C9_two_timers (sendOk : PendingDelivery → Bool) (cfg : BrandConfig)
    (now : Nat) (m : PendingDelivery) (rest : List PendingDelivery)
    (s : BotState) (c : Nat) (hready : s.isReady = true)
    (hclient : s.client = some c) (hq : s.messageQueue = m :: rest)
    (hfail : sendOk m = false) (hlt : m.retries < 3) :
    (processMessageQueue sendOk cfg now s).scheduled
        = [5000 * (m.retries + 1), 1000] := by
  rw [processMessageQueue_fail_lt sendOk cfg now m rest s c hready hclient hq hfail hlt]

/-- Witness for C9 at a concrete ready state holding one fresh item. -/
theorem C9_two_timers_witness :
    (processMessageQueue (fun _ => false) cfg0 0 readyState).scheduled
        = [5000 * (m0.retries + 1), 1000] :=
  C9_two_timers (fun _ => false) cfg0 0 m0 [] readyState 0 rfl rfl rfl rfl (by decide)

/-- C6: the Message Composer is a pure function, so two compositions with
identical decision, reason, branding configuration and frozen clock yield
identical payloads, and every composition yields a complete payload
(title, body, decision color and both mandatory fields present). -/
theorem C6_composer_deterministic (cfg : BrandConfig) (status : Status)
    (reason : Option String) (now : Nat) :
    composeEmbed cfg status reason now = composeEmbed cfg status reason now ∧
    completePayload (composeEmbed cfg status reason now) = true := by
  refine ⟨rfl, ?_⟩
  obtain _ | r := reason
  · cases status <;> rfl
  · by_cases hr : r = ""
    · subst hr
      cases status <;> rfl
    · cases status <;>
        simp [composeEmbed, completePayload, fieldCount, hr,
          approvedDescription, deniedDescription]

/-- C7 counterexample: an empty-string reason is a present reason
(`some ""`), yet the composed payload carries no Staff Note or Reason
field, because the source guards the field with JS truthiness
(`if (reason)`, line 110).  The claim asserts exactly one such extra
field whenever a reason is present, so it fails at this input. -/
theorem C7_counterexample :
    (some "" : Option String).isSome = true ∧
    fieldCount (composeEmbed cfg0 .approved (some "") 0) "Staff Note" = 0 ∧
    fieldCount (composeEmbed cfg0 .denied (some "") 0) "Reason" = 0 :=
  ⟨rfl, rfl, rfl⟩

/-- C7 amended: the composed payload has the green color for approvals
and the red color for denials; a present NON-EMPTY reason contributes
exactly one field, labeled Staff Note for approvals and Reason for
denials, and no such field exists when the reason is absent or is the
empty string (JS-falsy, skipped by the truthiness check of line 110);
the supplementary Important Information field appears exactly on
approved payloads. -/
theorem C7_payload_fields (cfg : BrandConfig) (v : String) (now : Nat)
    (hv : v ≠ "") :
    (∀ r, (composeEmbed cfg .approved r now).color = "#00FF00") ∧
    (∀ r, (composeEmbed cfg .denied r now).color = "#FF0000") ∧
    fieldCount (composeEmbed cfg .approved (some v) now) "Staff Note" = 1 ∧
    fieldCount (composeEmbed cfg .approved (some v) now) "Reason" = 0 ∧
    fieldCount (composeEmbed cfg .denied (some v) now) "Reason" = 1 ∧
    fieldCount (composeEmbed cfg .denied (some v) now) "Staff Note" = 0 ∧
    fieldCount (composeEmbed cfg .approved none now) "Staff Note" = 0 ∧
    fieldCount (composeEmbed cfg .approved none now) "Reason" = 0 ∧
    fieldCount (composeEmbed cfg .denied none now) "Staff Note" = 0 ∧
    fieldCount (composeEmbed cfg .denied none now) "Reason" = 0 ∧
    fieldCount (composeEmbed cfg .approved (some "") now) "Staff Note" = 0 ∧
    fieldCount (composeEmbed cfg .approved (some "") now) "Reason" = 0 ∧
    fieldCount (composeEmbed cfg .denied (some "") now) "Reason" = 0 ∧
    fieldCount (composeEmbed cfg .denied (some "") now) "Staff Note" = 0 ∧
    fieldCount (composeEmbed cfg .approved (some v) now) "Important Information" = 1 ∧
    fieldCount (composeEmbed cfg .approved none now) "Important Information" = 1 ∧
    fieldCount (composeEmbed cfg .denied (some v) now) "Important Information" = 0 ∧
    fieldCount (composeEmbed cfg .denied none now) "Important Information" = 0 := by
  refine ⟨fun r => rfl, fun r => rfl, ?_, ?_, ?_, ?_, ?_, ?_, ?_, ?_, ?_, ?_,
    ?_, ?_, ?_, ?_, ?_, ?_⟩
  all_goals first
    | rfl
    | simp [composeEmbed, fieldCount, hv]

/-- Witness for the amended C7 at a concrete non-empty reason. -/
theorem C7_payload_fields_witness :
    (composeEmbed cfg0 .approved (some "Great application") 0).color = "#00FF00" ∧
    fieldCount (composeEmbed cfg0 .approved (some "Great application") 0) "Staff Note" = 1 ∧
    fieldCount (composeEmbed cfg0 .denied (some "Great application") 0) "Reason" = 1 ∧
    fieldCount (composeEmbed cfg0 .approved (some "Great application") 0) "Important Information" = 1 := by
  have h := C7_payload_fields cfg0 "Great application" 0 (by decide)
  exact ⟨h.1 (some "Great application"), h.2.2.1, h.2.2.2.2.1,
    h.2.2.2.2.2.2.2.2.2.2.2.2.2.2.1⟩

/-- C8: initialization is idempotent once a session handle exists: one
call is the identity, N iterated calls leave the state exactly as it was,
and in particular no further session object is constructed and no further
login attempt is made. -/
theorem C8_init_idempotent (env : Env) (s : BotState) (c : Nat) (n : Nat)
    (hclient : s.client = some c) :
    initDiscordBot env s = s ∧
    (initDiscordBot env)^[n] s = s ∧
    ((initDiscordBot env)^[n] s).sessionsCreated = s.sessionsCreated ∧
    ((initDiscordBot env)^[n] s).loginAttempts = s.loginAttempts := by
  have hfix : initDiscordBot env s = s :=
    initDiscordBot_client_some env s c hclient
  have hiter : (initDiscordBot env)^[n] s = s := Function.iterate_fixed hfix n
  exact ⟨hfix, hiter, by rw [hiter], by rw [hiter]⟩

/-- Witness for C8 at a concrete state with a session present, five calls. -/
theorem C8_init_idempotent_witness :
    initDiscordBot envNone readyEmptyState = readyEmptyState ∧
    (initDiscordBot envNone)^[5] readyEmptyState = readyEmptyState ∧
    ((initDiscordBot envNone)^[5] readyEmptyState).sessionsCreated = readyEmptyState.sessionsCreated ∧
    ((initDiscordBot envNone)^[5] readyEmptyState).loginAttempts = readyEmptyState.loginAttempts :=
  C8_init_idempotent envNone readyEmptyState 0 5 rfl

/-- One-step unfolding of `drainTrace`. -/
theorem drainTrace_succ (sendOk : PendingDelivery → Bool) (cfg : BrandConfig)
    (now : Nat) (n : Nat) (s : BotState) :
    drainTrace sendOk cfg now (n + 1) s =
      ((drainTrace sendOk cfg now n (processMessageQueue sendOk cfg now s).state).1,
        (processMessageQueue sendOk cfg now s).attempted.toList ++
          (drainTrace sendOk cfg now n (processMessageQueue sendOk cfg now s).state).2) :=
  rfl

/-- Four drain passes over a ready state whose head item is fresh, with
every send failing: the item is attempted in each of the four passes with
retry counts 0, 1, 2, 3 and is then gone from the queue. -/
theorem drainTrace_four_failures (sendOk : PendingDelivery → Bool)
    (cfg : BrandConfig) (now : Nat) (u : String) (st : Status)
    (r : Option String) (rest : List PendingDelivery) (s : BotState) (c : Nat)
    (hready : s.isReady = true) (hclient : s.client = some c)
    (hq : s.messageQueue = ⟨u, st, r, 0⟩ :: rest)
    (hf : ∀ x, sendOk x = false) :
    drainTrace sendOk cfg now 4 s =
      ({ s with messageQueue := rest },
        [⟨u, st, r, 0⟩, ⟨u, st, r, 1⟩, ⟨u, st, r, 2⟩, ⟨u, st, r, 3⟩]) := by
  have h1 := processMessageQueue_fail_lt sendOk cfg now ⟨u, st, r, 0⟩ rest s c
    hready hclient hq (hf _) (by simp)
  have h2 := processMessageQueue_fail_lt sendOk cfg now ⟨u, st, r, 1⟩ rest
    { s with messageQueue := ⟨u, st, r, 1⟩ :: rest } c hready hclient rfl (hf _) (by simp)
  have h3 := processMessageQueue_fail_lt sendOk cfg now ⟨u, st, r, 2⟩ rest
    { s with messageQueue := ⟨u, st, r, 2⟩ :: rest } c hready hclient rfl (hf _) (by simp)
  have h4 := processMessageQueue_fail_ge sendOk cfg now ⟨u, st, r, 3⟩ rest
    { s with messageQueue := ⟨u, st, r, 3⟩ :: rest } c hready hclient rfl (hf _) (by simp)
  simp at h1 h2 h3 h4
  simp [show (4 : Nat) = 3 + 1 from rfl, show (3 : Nat) = 2 + 1 from rfl,
    show (2 : Nat) = 1 + 1 from rfl, drainTrace_succ, drainTrace, h1, h2, h3, h4]

/-- C3: a queued item whose send fails on every drain pass is attempted
exactly 4 times (once per pass, with retry counts 0, 1, 2, 3) and is then
permanently removed: four passes leave exactly the rest of the queue, the
queue length has decreased by exactly one, and every later pass acts only
on the remaining items, so the removed item is never re-attempted. -/
theorem C3_retry_ceiling (sendOk : PendingDelivery → Bool) (cfg : BrandConfig)
    (now : Nat) (m : PendingDelivery) (rest : List PendingDelivery)
    (s : BotState) (c : Nat) (hready : s.isReady = true)
    (hclient : s.client = some c) (hq : s.messageQueue = m :: rest)
    (hr : m.retries = 0) (hf : ∀ x, sendOk x = false) :
    drainTrace sendOk cfg now 4 s =
      ({ s with messageQueue := rest },
        [m, { m with retries := 1 }, { m with retries := 2 }, { m with retries := 3 }]) ∧
    (drainTrace sendOk cfg now 4 s).1.messageQueue.length + 1
        = s.messageQueue.length ∧
    ∀ k, drainTrace sendOk cfg now (4 + k) s =
      ((drainTrace sendOk cfg now k { s with messageQueue := rest }).1,
        [m, { m with retries := 1 }, { m with retries := 2 }, { m with retries := 3 }]
          ++ (drainTrace sendOk cfg now k { s with messageQueue := rest }).2) := by
  obtain ⟨u, st, r, rc⟩ := m
  obtain rfl : rc = 0 := hr
  have hmain := drainTrace_four_failures sendOk cfg now u st r rest s c
    hready hclient hq hf
  refine ⟨hmain, ?_, ?_⟩
  · rw [hmain, hq]
    simp
  · intro k
    rw [drainTrace_add, hmain]

/-- Witness for C3 at a concrete ready state holding one fresh item. -/
theorem C3_retry_ceiling_witness :
    drainTrace (fun _ => false) cfg0 0 4 readyState =
      ({ readyState with messageQueue := [] },
        [m0, { m0 with retries := 1 }, { m0 with retries := 2 }, { m0 with retries := 3 }]) ∧
    (drainTrace (fun _ => false) cfg0 0 4 readyState).1.messageQueue.length + 1
        = readyState.messageQueue.length :=
  ⟨(C3_retry_ceiling (fun _ => false) cfg0 0 m0 [] readyState 0 rfl rfl rfl rfl
      (fun _ => rfl)).1,
   (C3_retry_ceiling (fun _ => false) cfg0 0 m0 [] readyState 0 rfl rfl rfl rfl
      (fun _ => rfl)).2.1⟩

/-- C4: the facade is a total function (the source catches every error of
the immediate send, so nothing is thrown to the caller); called while the
connection is ready it attempts one immediate send, returning
delivered = true with an unchanged state on success, and on failure
appending a fresh entry with retries = 0 and returning delivered = false. -/
theorem C4_dispatch_ready (env : Env) (sendOk : Bool) (cfg : BrandConfig)
    (now : Nat) (userId : String) (status : Status) (reason : Option String)
    (s : BotState) (c : Nat) (hclient : s.client = some c)
    (hready : s.isReady = true) :
    (sendOk = true →
      sendDirectMessage env sendOk cfg now userId status reason s
        = { state := s, delivered := true, attempted := true }) ∧
    (sendOk = false →
      sendDirectMessage env sendOk cfg now userId status reason s
        = { state := { s with messageQueue := s.messageQueue ++ [⟨userId, status, reason, 0⟩] }
            delivered := false
            attempted := true }) := by
  constructor <;> intro h <;> subst h <;>
    simp [sendDirectMessage, sendDirectMessageInternal, hclient, hready]

/-- Witness for C4: one succeeding and one failing immediate send from a
concrete ready state. -/
theorem C4_dispatch_ready_witness :
    sendDirectMessage envNone true cfg0 0 "u1" .approved none readyEmptyState
      = { state := readyEmptyState, delivered := true, attempted := true } ∧
    sendDirectMessage envNone false cfg0 0 "u1" .approved none readyEmptyState
      = { state := { readyEmptyState with
            messageQueue := readyEmptyState.messageQueue ++ [⟨"u1", .approved, none, 0⟩] }
          delivered := false
          attempted := true } :=
  ⟨(C4_dispatch_ready envNone true cfg0 0 "u1" .approved none readyEmptyState 0
      rfl rfl).1 rfl,
   (C4_dispatch_ready envNone false cfg0 0 "u1" .approved none readyEmptyState 0
      rfl rfl).2 rfl⟩

/-- C5: a dispatch made while ready = false never attempts a send: the
item is appended directly to the queue with retries = 0 and the call
reports delivered = false. -/
theorem C5_not_ready_no_send (env : Env) (sendOk : Bool) (cfg : BrandConfig)
    (now : Nat) (userId : String) (status : Status) (reason : Option String)
    (s : BotState) (hready : s.isReady = false) :
    (sendDirectMessage env sendOk cfg now userId status reason s).attempted = false ∧
    (sendDirectMessage env sendOk cfg now userId status reason s).delivered = false ∧
    (sendDirectMessage env sendOk cfg now userId status reason s).state.messageQueue
        = s.messageQueue ++ [⟨userId, status, reason, 0⟩] := by
  have h1 : (if s.client = none then initDiscordBot env s else s).isReady = false := by
    split
    · rw [initDiscordBot_isReady]
      exact hready
    · exact hready
  have h2 : (if s.client = none then initDiscordBot env s else s).messageQueue
      = s.messageQueue := by
    split
    · exact initDiscordBot_messageQueue env s
    · rfl
  simp [sendDirectMessage, h1, h2]

/-- Witness for C5 at the initial state. -/
theorem C5_not_ready_no_send_witness :
    (sendDirectMessage envNone true cfg0 0 "u2" .approved (some "Great application")
        BotState.initial).attempted = false ∧
    (sendDirectMessage envNone true cfg0 0 "u2" .approved (some "Great application")
        BotState.initial).delivered = false ∧
    (sendDirectMessage envNone true cfg0 0 "u2" .approved (some "Great application")
        BotState.initial).state.messageQueue
      = BotState.initial.messageQueue ++ [⟨"u2", .approved, some "Great application", 0⟩] :=
  C5_not_ready_no_send envNone true cfg0 0 "u2" .approved (some "Great application")
    BotState.initial rfl

/-- C1 counterexample: with the bot token absent from the environment, a
single dispatch call from the initial state does add an item to the
message queue (the not-ready branch of lines 173-177 enqueues before the
readiness of the never-initialized client is ever established), refuting
the claim that no item is ever added.  The delivered = false half of the
claim does hold at this input. -/
theorem C1_counterexample :
    Env.tokenPresent envNone = false ∧
    (sendDirectMessage envNone false cfg0 0 "u9" .denied none
        BotState.initial).state.messageQueue
      = [⟨"u9", .denied, none, 0⟩] ∧
    (sendDirectMessage envNone false cfg0 0 "u9" .denied none
        BotState.initial).delivered = false :=
  ⟨rfl, rfl, rfl⟩

/-- C1 amended: with the bot token absent the subsystem never initializes
and never attempts a send; every dispatch call returns delivered = false,
but each call appends its item to the queue with retries = 0, so after N
calls the queue has grown by exactly N items (they are simply never
drained, readiness being permanently false). -/
theorem C1_token_absent_inert (env : Env) (sendOk : Bool) (cfg : BrandConfig)
    (now : Nat) (calls : List (String × Status × Option String)) (s : BotState)
    (htok : env.tokenPresent = false) (hready : s.isReady = false) :
    (dispatchRun env sendOk cfg now calls s).1.messageQueue
        = s.messageQueue ++ calls.map (fun c => ⟨c.1, c.2.1, c.2.2, 0⟩) ∧
    (dispatchRun env sendOk cfg now calls s).1.messageQueue.length
        = s.messageQueue.length + calls.length ∧
    ∀ p ∈ (dispatchRun env sendOk cfg now calls s).2, p = (false, false) := by
  revert hready
  induction calls generalizing s with
  | nil =>
    intro hready
    simp [dispatchRun]
  | cons c cs ih =>
    intro hready
    have hs1 : (if s.client = none then initDiscordBot env s else s) = s := by
      split
      · exact initDiscordBot_no_token env s htok
      · rfl
    have hstep : sendDirectMessage env sendOk cfg now c.1 c.2.1 c.2.2 s
        = { state := { s with messageQueue := s.messageQueue ++ [⟨c.1, c.2.1, c.2.2, 0⟩] }
            delivered := false
            attempted := false } := by
      simp [sendDirectMessage, hs1, hready]
    have hih := ih { s with messageQueue := s.messageQueue ++ [⟨c.1, c.2.1, c.2.2, 0⟩] }
      hready
    refine ⟨?_, ?_, ?_⟩
    · simp only [dispatchRun, hstep]
      rw [hih.1]
      simp
    · simp only [dispatchRun, hstep]
      rw [hih.2.1]
      simp
      omega
    · simp only [dispatchRun, hstep]
      intro p hp
      rcases List.mem_cons.mp hp with h | h
      · exact h
      · exact hih.2.2 p h

/-- Witness for the amended C1: two dispatch calls from the initial state
with the token absent. -/
theorem C1_token_absent_inert_witness :
    (dispatchRun envNone false cfg0 0
        [("u1", .approved, none), ("u2", .denied, some "r")] BotState.initial).1.messageQueue
      = BotState.initial.messageQueue ++
          ([("u1", .approved, none), ("u2", .denied, some "r")].map
            (fun c => ⟨c.1, c.2.1, c.2.2, 0⟩)) ∧
    (dispatchRun envNone false cfg0 0
        [("u1", .approved, none), ("u2", .denied, some "r")] BotState.initial).1.messageQueue.length
      = BotState.initial.messageQueue.length + 2 ∧
    ∀ p ∈ (dispatchRun envNone false cfg0 0
        [("u1", .approved, none), ("u2", .denied, some "r")] BotState.initial).2,
      p = (false, false) :=
  C1_token_absent_inert envNone false cfg0 0
    [("u1", .approved, none), ("u2", .denied, some "r")] BotState.initial rfl rfl

/-- C10: when an immediate send from a ready dispatch fails, the item is
appended at the tail of the queue with retries = 0, so the failed
immediate attempt does not count toward the retry ceiling: the second
part shows that starting from an empty queue such an item undergoes 1
immediate attempt plus exactly 4 queued attempts (retry counts 0, 1, 2, 3)
before removal — 5 send attempts in total — and that no attempt happens
after that. -/
theorem C10_immediate_failure_retry_budget :
    (∀ (env : Env) (cfg : BrandConfig) (now : Nat) (u : String) (st : Status)
        (r : Option String) (s : BotState) (c : Nat),
      s.client = some c → s.isReady = true →
      (sendDirectMessage env false cfg now u st r s).state.messageQueue
          = s.messageQueue ++ [⟨u, st, r, 0⟩] ∧
      (sendDirectMessage env false cfg now u st r s).delivered = false ∧
      (sendDirectMessage env false cfg now u st r s).attempted = true) ∧
    (∀ (env : Env) (sendOk : PendingDelivery → Bool) (cfg : BrandConfig)
        (now : Nat) (u : String) (st : Status) (r : Option String)
        (s : BotState) (c : Nat),
      s.client = some c → s.isReady = true → s.messageQueue = [] →
      (∀ x, sendOk x = false) →
      (sendDirectMessage env false cfg now u st r s).attempted = true ∧
      drainTrace sendOk cfg now 4 (sendDirectMessage env false cfg now u st r s).state
          = ({ s with messageQueue := [] },
              [⟨u, st, r, 0⟩, ⟨u, st, r, 1⟩, ⟨u, st, r, 2⟩, ⟨u, st, r, 3⟩]) ∧
      1 + (drainTrace sendOk cfg now 4
            (sendDirectMessage env false cfg now u st r s).state).2.length = 5 ∧
      ∀ k, drainTrace sendOk cfg now k
            (drainTrace sendOk cfg now 4
              (sendDirectMessage env false cfg now u st r s).state).1
          = ({ s with messageQueue := [] }, [])) := by
  constructor
  · intro env cfg now u st r s c hclient hready
    refine ⟨?_, ?_, ?_⟩ <;>
      simp [sendDirectMessage, sendDirectMessageInternal, hclient, hready]
  · intro env sendOk cfg now u st r s c hclient hready hq hf
    have hstate : (sendDirectMessage env false cfg now u st r s).state
        = { s with messageQueue := [⟨u, st, r, 0⟩] } := by
      simp [sendDirectMessage, sendDirectMessageInternal, hclient, hready, hq]
    have hfour := drainTrace_four_failures sendOk cfg now u st r []
      { s with messageQueue := [⟨u, st, r, 0⟩] } c hready hclient rfl hf
    refine ⟨?_, ?_, ?_, ?_⟩
    · simp [sendDirectMessage, sendDirectMessageInternal, hclient, hready]
    · rw [hstate, hfour]
    · rw [hstate, hfour]
      rfl
    · intro k
      rw [hstate, hfour]
      exact drainTrace_nil sendOk cfg now k _ rfl

/-- Witness for C10: a failing immediate dispatch from a concrete ready
state with an empty queue, followed by four failing drain passes. -/
theorem C10_immediate_failure_retry_budget_witness :
    ((sendDirectMessage envNone false cfg0 0 "u1" .approved none
        readyEmptyState).state.messageQueue
      = readyEmptyState.messageQueue ++ [⟨"u1", .approved, none, 0⟩]) ∧
    (sendDirectMessage envNone false cfg0 0 "u1" .approved none
        readyEmptyState).attempted = true ∧
    1 + (drainTrace (fun _ => false) cfg0 0 4
          (sendDirectMessage envNone false cfg0 0 "u1" .approved none
            readyEmptyState).state).2.length = 5 :=
  ⟨(C10_immediate_failure_retry_budget.1 envNone cfg0 0 "u1" .approved none
      readyEmptyState 0 rfl rfl).1,
   (C10_immediate_failure_retry_budget.2 envNone (fun _ => false) cfg0 0 "u1"
      .approved none readyEmptyState 0 rfl rfl rfl (fun _ => rfl)).1,
   (C10_immediate_failure_retry_budget.2 envNone (fun _ => false) cfg0 0 "u1"
      .approved none readyEmptyState 0 rfl rfl rfl (fun _ => rfl)).2.2.1⟩
